/-
  Verification development for the MTAA backend authentication core
  (src/app/auth/authentication.py, src/app/auth/Tokenization.py,
   src/app/auth/CreateUser.py).

  The Python source is shallowly embedded: pure helper functions become Lean
  functions, the Identity Store (table users_auth) becomes an explicit list of
  rows threaded through each operation, byte values are Nat (reduced mod 2^32 /
  mod 256 where the machine arithmetic of SHA-256 matters), and Python
  exceptions become an explicit error type.  Nondeterministic inputs of the
  source (os.urandom salts, uuid4 ids, the configured JWT secret, the wall
  clock used by JWT expiry checking) are passed as explicit parameters.
-/
import Mathlib

namespace MtaaAuth

/-! ## Bytes, 32-bit words, SHA-256

`hashlib.pbkdf2_hmac("sha256", password, salt, 10000)` is modelled by a full
implementation of SHA-256 / HMAC-SHA256 / PBKDF2 over `List Nat` byte lists
(every byte kept below 256, words reduced mod 2^32 at each addition). -/

/-- One 32-bit word, big-endian, as four bytes (each explicitly `% 256`). -/
def wordBytes (w : Nat) : List Nat :=
  [w / 2 ^ 24 % 256, w / 2 ^ 16 % 256, w / 2 ^ 8 % 256, w % 256]

/-- Right-rotation of a 32-bit word. -/
def rotr (n x : Nat) : Nat :=
  (x / 2 ^ n + x % 2 ^ n * 2 ^ (32 - n)) % 2 ^ 32

/-- Logical right shift of a 32-bit word. -/
def shr (n x : Nat) : Nat := x / 2 ^ n

/-- Bitwise complement of a 32-bit word. -/
def wnot (x : Nat) : Nat := Nat.xor x (2 ^ 32 - 1)

/-- The SHA-256 round constants K. -/
def sha256K : List Nat :=
  [1116352408, 1899447441, 3049323471, 3921009573,
   961987163, 1508970993, 2453635748, 2870763221,
   3624381080, 310598401, 607225278, 1426881987,
   1925078388, 2162078206, 2614888103, 3248222580,
   3835390401, 4022224774, 264347078, 604807628,
   770255983, 1249150122, 1555081692, 1996064986,
   2554220882, 2821834349, 2952996808, 3210313671,
   3336571891, 3584528711, 113926993, 338241895,
   666307205, 773529912, 1294757372, 1396182291,
   1695183700, 1986661051, 2177026350, 2456956037,
   2730485921, 2820302411, 3259730800, 3345764771,
   3516065817, 3600352804, 4094571909, 275423344,
   430227734, 506948616, 659060556, 883997877,
   958139571, 1322822218, 1537002063, 1747873779,
   1955562222, 2024104815, 2227730452, 2361852424,
   2428436474, 2756734187, 3204031479, 3329325298]

/-- The SHA-256 working state: eight 32-bit words. -/
structure Sha256State where
  a : Nat
  b : Nat
  c : Nat
  d : Nat
  e : Nat
  f : Nat
  g : Nat
  h : Nat

/-- The SHA-256 initial hash value. -/
def sha256Init : Sha256State :=
  ⟨1779033703, 3144134277, 1013904242, 2773480762,
   1359893119, 2600822924, 528734635, 1541459225⟩

/-- Big-endian 32-bit words from a byte list (the 16-word block view). -/
def bytesToWords : List Nat → List Nat
  | b0 :: b1 :: b2 :: b3 :: rest =>
      (b0 * 2 ^ 24 + b1 * 2 ^ 16 + b2 * 2 ^ 8 + b3) :: bytesToWords rest
  | _ => []

/-- One step of the SHA-256 message-schedule extension: appends
`σ1(w[t-2]) + w[t-7] + σ0(w[t-15]) + w[t-16]` to the schedule so far. -/
def scheduleStep (ws : List Nat) : List Nat :=
  let n := ws.length
  let w2 := ws.getD (n - 2) 0
  let w7 := ws.getD (n - 7) 0
  let w15 := ws.getD (n - 15) 0
  let w16 := ws.getD (n - 16) 0
  let s0 := Nat.xor (rotr 7 w15) (Nat.xor (rotr 18 w15) (shr 3 w15))
  let s1 := Nat.xor (rotr 17 w2) (Nat.xor (rotr 19 w2) (shr 10 w2))
  ws ++ [(s1 + w7 + s0 + w16) % 2 ^ 32]

/-- Extends the 16-word block to the 64-word SHA-256 message schedule. -/
def schedule (ws : List Nat) : List Nat :=
  Nat.rec ws (fun _ acc => scheduleStep acc) 48

/-- One SHA-256 compression round, consuming one (K, W) pair. -/
def sha256Round (st : Sha256State) (kw : Nat × Nat) : Sha256State :=
  let S1 := Nat.xor (rotr 6 st.e) (Nat.xor (rotr 11 st.e) (rotr 25 st.e))
  let ch := Nat.xor (Nat.land st.e st.f) (Nat.land (wnot st.e) st.g)
  let t1 := (st.h + S1 + ch + kw.1 + kw.2) % 2 ^ 32
  let S0 := Nat.xor (rotr 2 st.a) (Nat.xor (rotr 13 st.a) (rotr 22 st.a))
  let mj := Nat.xor (Nat.land st.a st.b)
      (Nat.xor (Nat.land st.a st.c) (Nat.land st.b st.c))
  let t2 := (S0 + mj) % 2 ^ 32
  ⟨(t1 + t2) % 2 ^ 32, st.a, st.b, st.c, (st.d + t1) % 2 ^ 32, st.e, st.f, st.g⟩

/-- SHA-256 compression of one 64-byte block into the running state. -/
def sha256Block (st : Sha256State) (block : List Nat) : Sha256State :=
  let w := schedule (bytesToWords block)
  let r := (sha256K.zip w).foldl sha256Round st
  ⟨(st.a + r.a) % 2 ^ 32, (st.b + r.b) % 2 ^ 32, (st.c + r.c) % 2 ^ 32,
   (st.d + r.d) % 2 ^ 32, (st.e + r.e) % 2 ^ 32, (st.f + r.f) % 2 ^ 32,
   (st.g + r.g) % 2 ^ 32, (st.h + r.h) % 2 ^ 32⟩

/-- Splits a byte list into 64-byte chunks. -/
def chunks64 (l : List Nat) : List (List Nat) :=
  if h : l = [] then []
  else
    have : l.length - 64 < l.length := by
      have := List.length_pos.mpr h
      omega
    l.take 64 :: chunks64 (l.drop 64)
termination_by l.length
decreasing_by simpa using this

/-- SHA-256 padding: append 0x80, zeros to 56 mod 64, and the 64-bit
big-endian bit length. -/
def sha256Pad (msg : List Nat) : List Nat :=
  let L := msg.length
  let zeros := (64 + 56 - (L + 1) % 64) % 64
  let bitLen := 8 * L
  msg ++ 0x80 :: List.replicate zeros 0 ++
    [bitLen / 2 ^ 56 % 256, bitLen / 2 ^ 48 % 256, bitLen / 2 ^ 40 % 256,
     bitLen / 2 ^ 32 % 256, bitLen / 2 ^ 24 % 256, bitLen / 2 ^ 16 % 256,
     bitLen / 2 ^ 8 % 256, bitLen % 256]

/-- The SHA-256 digest (32 bytes) of a byte list. -/
def sha256 (msg : List Nat) : List Nat :=
  let fin := (chunks64 (sha256Pad msg)).foldl sha256Block sha256Init
  wordBytes fin.a ++ wordBytes fin.b ++ wordBytes fin.c ++ wordBytes fin.d ++
    wordBytes fin.e ++ wordBytes fin.f ++ wordBytes fin.g ++ wordBytes fin.h

/-! ## HMAC-SHA256 and PBKDF2 -/

/-- HMAC-SHA256 over byte lists (block size 64). -/
def hmacSha256 (key msg : List Nat) : List Nat :=
  let k0 := if 64 < key.length then sha256 key else key
  let k := k0 ++ List.replicate (64 - k0.length) 0
  let ipad := k.map (Nat.xor 0x36)
  let opad := k.map (Nat.xor 0x5c)
  sha256 (opad ++ sha256 (ipad ++ msg))

/-- Bytewise xor (PBKDF2 block accumulation). -/
def xorBytes (a b : List Nat) : List Nat := List.zipWith Nat.xor a b

/-- The PBKDF2 iteration loop: `u` is the last U value, `acc` the xor of all
U values so far, `n` the number of iterations still to perform. -/
def pbkdf2Loop (pw : List Nat) : List Nat → List Nat → Nat → List Nat
  | _, acc, 0 => acc
  | u, acc, n + 1 =>
      let u' := hmacSha256 pw u
      pbkdf2Loop pw u' (xorBytes acc u') n

/-- `hashlib.pbkdf2_hmac("sha256", pw, salt, iters)` with the default derived
key length (the 32-byte SHA-256 digest size, hence a single block, index 1). -/
def pbkdf2HmacSha256 (pw salt : List Nat) (iters : Nat) : List Nat :=
  let u1 := hmacSha256 pw (salt ++ [0, 0, 0, 1])
  pbkdf2Loop pw u1 u1 (iters - 1)

/-! ## Hex encoding and UTF-8 bytes -/

/-- One lower-case hex digit. -/
def hexDigit (n : Nat) : Char :=
  if n < 10 then Char.ofNat (48 + n) else Char.ofNat (87 + n)

/-- `bytes.hex()`: two lower-case hex characters per byte. -/
def bytesToHexChars (l : List Nat) : List Char :=
  l.foldr (fun b acc => hexDigit (b / 16) :: hexDigit (b % 16) :: acc) []

/-- `bytes.hex()` as a string. -/
def bytesToHex (l : List Nat) : String := String.mk (bytesToHexChars l)

/-- `bytes(s, "utf-8")` as a list of byte values. -/
def utf8Bytes (s : String) : List Nat := s.toUTF8.toList.map UInt8.toNat

/-! ## Tokenization.password_hashing (src/app/auth/Tokenization.py:36-53) -/

/-- `Tokenization.password_hashing`: PBKDF2-HMAC with the "sha256" digest,
the UTF-8 bytes of the password and of the hex salt string, 10000 iterations,
hex-encoded result. -/
def password_hashing (original_pass salty_pass : String) : String :=
  bytesToHex (pbkdf2HmacSha256 (utf8Bytes original_pass) (utf8Bytes salty_pass) 10000)

/-! ## Base64url (the `base64.urlsafe_b64encode` transport used by PyJWT,
with padding stripped, as in JWT compact serialization) -/

/-- The base64url alphabet: value (< 64) to character. -/
def b64Char (v : Nat) : Char :=
  if v < 26 then Char.ofNat (65 + v)
  else if v < 52 then Char.ofNat (97 + (v - 26))
  else if v < 62 then Char.ofNat (48 + (v - 52))
  else if v = 62 then '-'
  else '_'

/-- The base64url alphabet: character to value, `none` off the alphabet. -/
def b64Val (c : Char) : Option Nat :=
  let n := c.toNat
  if 65 ≤ n ∧ n ≤ 90 then some (n - 65)
  else if 97 ≤ n ∧ n ≤ 122 then some (n - 97 + 26)
  else if 48 ≤ n ∧ n ≤ 57 then some (n - 48 + 52)
  else if n = 45 then some 62
  else if n = 95 then some 63
  else none

/-- Unpadded base64url encoding of a byte list. -/
def b64Encode : List Nat → List Char
  | [] => []
  | [b0] => [b64Char (b0 / 4), b64Char (b0 % 4 * 16)]
  | [b0, b1] =>
      [b64Char (b0 / 4), b64Char (b0 % 4 * 16 + b1 / 16), b64Char (b1 % 16 * 4)]
  | b0 :: b1 :: b2 :: rest =>
      b64Char (b0 / 4) :: b64Char (b0 % 4 * 16 + b1 / 16) ::
        b64Char (b1 % 16 * 4 + b2 / 64) :: b64Char (b2 % 64) :: b64Encode rest

/-- Unpadded base64url decoding; `none` on a length-1 tail or a character
off the alphabet (surfaced by PyJWT as a decode error). -/
def b64Decode : List Char → Option (List Nat)
  | [] => some []
  | [_] => none
  | [c0, c1] =>
      match b64Val c0, b64Val c1 with
      | some v0, some v1 => some [v0 * 4 + v1 / 16]
      | _, _ => none
  | [c0, c1, c2] =>
      match b64Val c0, b64Val c1, b64Val c2 with
      | some v0, some v1, some v2 =>
          some [v0 * 4 + v1 / 16, v1 % 16 * 16 + v2 / 4]
      | _, _, _ => none
  | c0 :: c1 :: c2 :: c3 :: rest =>
      match b64Val c0, b64Val c1, b64Val c2, b64Val c3, b64Decode rest with
      | some v0, some v1, some v2, some v3, some tail =>
          some ((v0 * 4 + v1 / 16) :: (v1 % 16 * 16 + v2 / 4) ::
            (v2 % 4 * 64 + v3) :: tail)
      | _, _, _, _, _ => none

/-! ## Splitting the compact token on '.' -/

/-- Splitting a character list on a separator (every occurrence).  On a
well-formed `header.payload.signature` token this agrees with PyJWT's
`rsplit(".", 1)` / `split(".", 1)` segmentation. -/
def splitOnChar (sep : Char) : List Char → List (List Char)
  | [] => [[]]
  | c :: cs =>
      if c = sep then [] :: splitOnChar sep cs
      else
        match splitOnChar sep cs with
        | [] => [[c]]
        | s :: ss => (c :: s) :: ss

/-! ## JWT payload claims

The only payload the repository issues is the single-claim dict
`{"id": user_id}` (Tokenization.jwt_token_generalization); the verifier
(`jwt.decode` in token_access) additionally honours a registered `exp` claim
if a token carries one.  `json.dumps` / `json.loads` are modelled on exactly
these payload shapes, with compact separators and no escape sequences (ids
are restricted to characters that `json.dumps` emits verbatim). -/

structure Claims where
  id : Option String
  exp : Option Nat
deriving DecidableEq

/-- Decimal digits of a natural number. -/
def natChars (n : Nat) : List Char := (Nat.repr n).data

/-- `json.dumps` (compact separators) of the claim dicts in scope. -/
def serializeClaims (c : Claims) : List Char :=
  match c.id, c.exp with
  | some i, none =>
      '{' :: '"' :: 'i' :: 'd' :: '"' :: ':' :: '"' :: (i.data ++ ['"', '}'])
  | none, some e =>
      '{' :: '"' :: 'e' :: 'x' :: 'p' :: '"' :: ':' :: (natChars e ++ ['}'])
  | some i, some e =>
      '{' :: '"' :: 'i' :: 'd' :: '"' :: ':' :: '"' ::
        (i.data ++ '"' :: ',' :: '"' :: 'e' :: 'x' :: 'p' :: '"' :: ':' ::
          (natChars e ++ ['}']))
  | none, none => ['{', '}']

/-- A JSON string literal body (after the opening quote), up to the closing
quote; escape sequences are rejected (no id in scope contains them). -/
def parseStringLit : List Char → Option (List Char × List Char)
  | [] => none
  | c :: cs =>
      if c = '"' then some ([], cs)
      else if c = '\\' then none
      else
        match parseStringLit cs with
        | some (s, r) => some (c :: s, r)
        | none => none

/-- Is `c` a decimal digit? -/
def isDigitChar (c : Char) : Bool := 48 ≤ c.toNat && c.toNat ≤ 57

/-- One `"id"` or `"exp"` member of the payload object. -/
inductive JMember where
  | idM (s : List Char)
  | expM (n : Nat)

/-- Parses one member of the payload object. -/
def parseMember : List Char → Option (JMember × List Char)
  | '"' :: 'i' :: 'd' :: '"' :: ':' :: '"' :: rest =>
      match parseStringLit rest with
      | some (s, r) => some (.idM s, r)
      | none => none
  | '"' :: 'e' :: 'x' :: 'p' :: '"' :: ':' :: rest =>
      let ds := rest.takeWhile isDigitChar
      let r := rest.dropWhile isDigitChar
      if ds.isEmpty then none
      else some (.expM (ds.foldl (fun a c => a * 10 + (c.toNat - 48)) 0), r)
  | _ => none

/-- Records one parsed member in the claims (later duplicates win, as in
`json.loads`). -/
def applyMember (c : Claims) : JMember → Claims
  | .idM s => { c with id := some (String.mk s) }
  | .expM n => { c with exp := some n }

/-- `json.loads` of the payload object, on the shapes in scope. -/
def parseClaims (l : List Char) : Option Claims :=
  match l with
  | '{' :: '}' :: [] => some ⟨none, none⟩
  | '{' :: rest =>
      match parseMember rest with
      | some (m1, r1) =>
          match r1 with
          | '}' :: [] => some (applyMember ⟨none, none⟩ m1)
          | ',' :: r2 =>
              match parseMember r2 with
              | some (m2, '}' :: []) =>
                  some (applyMember (applyMember ⟨none, none⟩ m1) m2)
              | _ => none
          | _ => none
      | none => none
  | _ => none

/-! ## The JWT header and the compact token -/

/-- The configured signing algorithm (`settings.ALGORITHM`).  The repository
loads it from an env file not in the tree; the example token printed in the
login docstring decodes to the header `{"alg":"HS256","typ":"JWT"}`, pinning
HS256. -/
def settings_ALGORITHM : String := "HS256"

/-- The PyJWT protected header `{"alg": alg, "typ": "JWT"}`, serialized with
compact separators (byte-for-byte the header of the docstring's example
token). -/
def headerChars (alg : String) : List Char :=
  '{' :: '"' :: 'a' :: 'l' :: 'g' :: '"' :: ':' :: '"' ::
    (alg.data ++ '"' :: ',' :: '"' :: 't' :: 'y' :: 'p' :: '"' :: ':' :: '"' ::
      'J' :: 'W' :: 'T' :: '"' :: '}' :: [])

/-- Extracts the `alg` value from a serialized header of the shape the
repository's issuer emits. -/
def parseHeaderAlg : List Char → Option (List Char)
  | '{' :: '"' :: 'a' :: 'l' :: 'g' :: '"' :: ':' :: '"' :: rest =>
      match parseStringLit rest with
      | some (a, [',', '"', 't', 'y', 'p', '"', ':', '"', 'J', 'W', 'T', '"', '}']) =>
          some a
      | _ => none
  | _ => none

/-- ASCII bytes of a character list (UTF-8 restricted to the ASCII payloads
and headers in scope). -/
def charsToBytes (l : List Char) : List Nat := l.map Char.toNat

/-- `jwt.encode(payload_dict, secret, algorithm)`: base64url segments of the
serialized header and payload, HMAC-SHA256 signature over
`header_b64.payload_b64`, joined with dots. -/
def jwtEncodePayload (secret : String) (payload : List Char) : String :=
  let h64 := b64Encode (charsToBytes (headerChars settings_ALGORITHM))
  let p64 := b64Encode (charsToBytes payload)
  let sig := hmacSha256 (utf8Bytes secret) (charsToBytes (h64 ++ '.' :: p64))
  String.mk (h64 ++ '.' :: (p64 ++ '.' :: b64Encode sig))

/-- `Tokenization.jwt_token_generalization` (src/app/auth/Tokenization.py:57-69)
applied to the only content the repository passes, `{"id": user_id}`. -/
def jwt_token_generalization (secret user_id : String) : String :=
  jwtEncodePayload secret (serializeClaims ⟨some user_id, none⟩)

/-- Outcome of `jwt.decode`: verified claims, ExpiredSignatureError, or
InvalidTokenError (bad segmentation, bad base64, unknown algorithm, or bad
signature all fall under InvalidTokenError). -/
inductive JwtOut where
  | ok (c : Claims)
  | expired
  | invalid
deriving DecidableEq

/-- `jwt.decode(token, secret, algorithms=algs)` at wall-clock time `now`:
split the compact token, base64url-decode the segments, check the header's
algorithm against the allow-list, verify the HMAC-SHA256 signature, then
honour an `exp` claim if present. -/
def jwt_decode (secret : String) (algs : List String) (now : Nat)
    (token : String) : JwtOut :=
  match splitOnChar '.' token.data with
  | [h64, p64, s64] =>
      match b64Decode h64, b64Decode p64, b64Decode s64 with
      | some hb, some pb, some sb =>
          match parseHeaderAlg (hb.map Char.ofNat) with
          | some alg =>
              if String.mk alg ∈ algs then
                if sb = hmacSha256 (utf8Bytes secret)
                    (charsToBytes (h64 ++ '.' :: p64)) then
                  match parseClaims (pb.map Char.ofNat) with
                  | some c =>
                      match c.exp with
                      | some e => if e < now then .expired else .ok c
                      | none => .ok c
                  | none => .invalid
                else .invalid
              else .invalid
          | none => .invalid
      | _, _, _ => .invalid
  | _ => .invalid

/-- A valid id for token purposes: nonempty, printable ASCII, and free of the
two characters `json.dumps` would escape.  Every id the repository generates
(`str(uuid.uuid4())`: lower-case hex and dashes) satisfies this. -/
def validIdChar (c : Char) : Bool :=
  32 ≤ c.toNat && c.toNat < 127 && c ≠ '"' && c ≠ '\\'

/-- Validity of an id string. -/
def validId (s : String) : Bool := s ≠ "" && s.data.all validIdChar

/-! ## The Identity Store and Python-level plumbing

Table `users_auth` is a list of rows, in insertion order; `fetchone` takes
the first row the WHERE clause matches, UPDATE rewrites every matching row,
and `cursor.rowcount` counts the matched rows. -/

/-- One row of `users_auth` (id, username, email, password_salt,
password_hash: the five columns the INSERT in signup writes). -/
structure UserRow where
  id : String
  username : String
  email : String
  password_salt : String
  password_hash : String
deriving DecidableEq

/-- The Identity Store. -/
abbrev Db := List UserRow

/-- Python truthiness of an `input.get(...)` field: `None` and `""` are
falsy. -/
def truthy : Option String → Bool
  | none => false
  | some s => !(s == "")

/-- Python exceptions the modelled flows can raise (`dbErr` is
psycopg2.Error, matched by the endpoints' dedicated except clause). -/
inductive PyErr where
  | http (status : Nat) (detail : String)
  | typeErr (msg : String)
  | valueErr (msg : String)
  | dbErr (msg : String)
deriving DecidableEq

/-- `str(e)` (starlette's HTTPException prints as `{status_code}: {detail}`). -/
def pyStr : PyErr → String
  | .http s d => Nat.repr s ++ ": " ++ d
  | .typeErr m => m
  | .valueErr m => m
  | .dbErr m => m

/-- What an endpoint hands back to the HTTP layer: a JSONResponse (or plain
dict, which FastAPI serves as 200), a raised HTTPException, or Python's
implicit `None` return (served as 200 with a null body). -/
inductive Resp where
  | json (status : Nat) (body : List (String × String))
  | err (status : Nat) (detail : String)
  | noneResp
deriving DecidableEq

/-- The endpoints' trailing
`except Exception as e: raise HTTPException(500, f"Internal server error: {e}")`.
fastapi's HTTPException subclasses Exception, so HTTPExceptions raised by
callees are caught and re-wrapped here too. -/
def wrap500 (e : PyErr) : Resp := .err 500 ("Internal server error: " ++ pyStr e)

/-! ## CreateUser (src/app/auth/CreateUser.py) -/

/-- `CreateUser.check_length_input`: every field at most 255 characters. -/
def check_length_input (username email password confirm_password : String) :
    Bool :=
  username.length ≤ 255 && email.length ≤ 255 && password.length ≤ 255 &&
    confirm_password.length ≤ 255

/-- `CreateUser.validate_input` (delegates to check_length_input). -/
def validate_input (username email password confirm_password : String) : Bool :=
  check_length_input username email password confirm_password

/-- A regex word character (`\w`/`\b` classification): letter, digit or
underscore. -/
def isWordChar (c : Char) : Bool :=
  let n := c.toNat
  (65 ≤ n && n ≤ 90) || (97 ≤ n && n ≤ 122) || (48 ≤ n && n ≤ 57) || n == 95

/-- A character of the local-part class `[A-Za-z0-9._%+-]`. -/
def isLocalChar (c : Char) : Bool :=
  isWordChar c || c == '.' || c == '%' || c == '+' || c == '-'

/-- A character of the domain class `[A-Za-z0-9.-]`. -/
def isDomainChar (c : Char) : Bool :=
  let n := c.toNat
  (65 ≤ n && n ≤ 90) || (97 ≤ n && n ≤ 122) || (48 ≤ n && n ≤ 57) ||
    c == '.' || c == '-'

/-- A character of the tld class `[A-Z|a-z]` (the `|` is a literal member of
the class in the source regex). -/
def isTldChar (c : Char) : Bool :=
  let n := c.toNat
  (65 ≤ n && n ≤ 90) || (97 ≤ n && n ≤ 122) || c == '|'

/-- Backtracking over the part after `@`: some split `d ++ '.' ++ t` with
`d` a nonempty domain-class run and `t` a 2-7 character tld-class run whose
last character is a word character (the trailing `\b`). -/
def emailRestOk (rest : List Char) : Bool :=
  (List.range rest.length).any fun i =>
    rest.getD i ' ' == '.' &&
      (let d := rest.take i
       let t := rest.drop (i + 1)
       !d.isEmpty && d.all isDomainChar && 2 ≤ t.length && t.length ≤ 7 &&
         t.all isTldChar && isWordChar (t.getLastD ' '))

/-- `CreateUser.validate_email`:
`re.fullmatch(r'\b[A-Za-z0-9._%+-]+@[A-Za-z0-9.-]+\.[A-Z|a-z]{2,7}\b', email)`
as its backtracking semantics: the whole string decomposes as
`local @ domain . tld` with the class, length and word-boundary constraints.
None of the character classes contains `@`, so the string must contain
exactly one `@`. -/
def validate_email (email : String) : Bool :=
  match splitOnChar '@' email.data with
  | [l, rest] =>
      !l.isEmpty && l.all isLocalChar && isWordChar (l.headD ' ') &&
        emailRestOk rest
  | _ => false

/-! ## Auth Gateway (src/app/auth/authentication.py) -/

/-- `check_passwords_equality` (authentication.py:223-243). -/
def check_passwords_equality (password confirm_password : String) : Bool :=
  password == confirm_password

/-- `check_signup_input` (authentication.py:194-220). -/
def check_signup_input (username email password confirm_password : String) :
    Bool :=
  check_passwords_equality password confirm_password &&
    validate_input username email password confirm_password &&
    validate_email email

/-- `generate_hashed_password` (authentication.py:150-191).  The fresh salt
drawn from `os.urandom` is an explicit parameter; `(None, None)` becomes
`none`. -/
def generate_hashed_password (freshSalt username email password
    confirm_password : String) : Option (String × String) :=
  if check_signup_input username email password confirm_password then
    some (freshSalt, password_hashing password freshSalt)
  else none

/-- `email_exists` (authentication.py:246-280):
`SELECT EXISTS(SELECT 1 FROM users_auth WHERE email=%s)`. -/
def email_exists (email : String) (db : Db) : Bool :=
  db.any (fun r => r.email == email)

/-- The request body of POST /api/signup/. -/
structure SignupInput where
  username : Option String
  email : Option String
  password : Option String
  confirm_password : Option String

/-- `signup` (authentication.py:67-147).  The fresh uuid4 and the fresh salt
are explicit parameters; the INSERT appends one row. -/
def signup (freshUuid freshSalt : String) (inp : SignupInput) (db : Db) :
    Resp × Db :=
  if !(truthy inp.username && truthy inp.email && truthy inp.password &&
      truthy inp.confirm_password) then
    (.json 400 [("detail", "Bad request: All fields are required.")], db)
  else
    let username := inp.username.getD ""
    let email := inp.email.getD ""
    let password := inp.password.getD ""
    let confirm_password := inp.confirm_password.getD ""
    if !email_exists email db then
      match generate_hashed_password freshSalt username email password
          confirm_password with
      | none => (.json 403 [("detail", "Forbidden: Access forbidden.")], db)
      | some (salty_password, hashed_password) =>
          (.json 201 [("detail", "Created: User created successfully")],
            db ++ [⟨freshUuid, username, email, salty_password, hashed_password⟩])
    else (.json 400 [("detail", "Bad request: Email already exists.")], db)

/-- `get_user` (authentication.py:338-385): fetch the first row with the
given username, recompute the hash from the stored salt and the supplied
password, and on a match issue the token over `{"id": row id}`; `False`
becomes `none`.  (A fetched row always has the five columns, so the source's
`len(record) == 5` test always passes.) -/
def get_user (secret username password : String) (db : Db) : Option String :=
  match db.find? (fun r => r.username == username) with
  | some record =>
      let hashed_password := record.password_hash
      let salty_password := record.password_salt
      let new_hashed_password := password_hashing password salty_password
      if check_passwords_equality hashed_password new_hashed_password then
        some (jwt_token_generalization secret record.id)
      else none
  | none => none

/-- The request body of POST /api/login/. -/
structure LoginInput where
  username : Option String
  password : Option String

/-- `login` (authentication.py:282-335).  The issued token is never the
empty string, but the source's `user_token and user_token is not False`
truthiness test is kept. -/
def login (secret : String) (inp : LoginInput) (db : Db) : Resp :=
  if !truthy inp.username || !truthy inp.password then
    .json 400 [("detail", "Bad request")]
  else
    match get_user secret (inp.username.getD "") (inp.password.getD "") db with
    | some user_token =>
        if user_token == "" then .json 401 [("detail", "Unauthorized")]
        else .json 200 [("jwt_token", user_token)]
    | none => .json 401 [("detail", "Unauthorized")]

/-- The outcome of `generate_new_hashed_password`: a (salt, hash) pair, or
the one-key dict `{"status": "Passwords are not equal."}`. -/
inductive SaltHashOrStatus where
  | pair (salt hash : String)
  | statusDict (msg : String)

/-- `generate_new_hashed_password` (authentication.py:462-499). -/
def generate_new_hashed_password (freshSalt password confirm_password :
    String) : SaltHashOrStatus :=
  if check_passwords_equality password confirm_password then
    .pair freshSalt (password_hashing password freshSalt)
  else .statusDict "Passwords are not equal."

/-- The message of the ValueError raised by tuple-unpacking a one-key dict
(`salty_password, hashed_password = {"status": ...}`). -/
def unpackMsg : String := "not enough values to unpack (expected 2, got 1)"

/-- The request body of PUT /api/forgotten-password/. -/
structure ForgotInput where
  email : Option String
  password : Option String
  confirm_password : Option String

/-- `forgotten_password` (authentication.py:388-459).  On a confirmation
mismatch the callee returns the status dict and the caller's tuple
unpacking raises ValueError, which the endpoint's generic handler re-raises
as the 500 response; the UPDATE is never reached. -/
def forgotten_password (freshSalt : String) (inp : ForgotInput) (db : Db) :
    Resp × Db :=
  if !(truthy inp.email && truthy inp.password && truthy inp.confirm_password) then
    (.json 400 [("detail", "Bad request: All fields are required.")], db)
  else
    let email := inp.email.getD ""
    if !email_exists email db then
      (.json 403 [("detail", "Forbidden: Access forbidden.")], db)
    else
      match generate_new_hashed_password freshSalt (inp.password.getD "")
          (inp.confirm_password.getD "") with
      | .statusDict _ => (wrap500 (.valueErr unpackMsg), db)
      | .pair salty_password hashed_password =>
          (.json 200 [("detail", "OK: Password updated successfully")],
            db.map fun r =>
              if r.email == email then
                { r with password_salt := salty_password,
                         password_hash := hashed_password }
              else r)

/-- `get_user_id` (authentication.py:905-939): fetch the first row with the
given id; `None` when the id has no row. -/
def get_user_id (id : String) (db : Db) : Option UserRow :=
  db.find? (fun r => r.id == id)

/-- `token_access` (authentication.py:864-902).  The jwt errors are turned
into HTTPExceptions 401/403; when the decoded id has no row, the source
subscripts the `None` returned by get_user_id (`db_user_id[0]`), raising
TypeError.  (A fetched row's id column is its primary key and never NULL, so
the source's `db_user_id[0] is None` test never fires on a fetched row.)  A
decoded payload without a truthy id falls through and returns `None`. -/
def token_access (secret : String) (now : Nat) (token : String) (db : Db) :
    Except PyErr (Option String) :=
  match jwt_decode secret [settings_ALGORITHM] now token with
  | .expired => .error (.http 401 "Token expired")
  | .invalid => .error (.http 403 "Forbidden: Invalid token")
  | .ok claims =>
      match claims.id with
      | some user_id =>
          if user_id == "" then .ok none
          else
            match get_user_id user_id db with
            | none => .error (.typeErr "NoneType object is not subscriptable")
            | some row =>
                if user_id == row.id then .ok (some user_id) else .ok none
      | none => .ok none

/-- The request body of PATCH /api/edit_profile/. -/
structure EditInput where
  username : Option String
  email : Option String
  password : Option String
  confirm_password : Option String

/-- `edit_only_username_or_email` (authentication.py:588-612). -/
def edit_only_username_or_email (attribute_to_change stay_attribute password
    confirm_password : Option String) : Bool :=
  attribute_to_change.isSome && !truthy stay_attribute && !truthy password &&
    !truthy confirm_password

/-- `edit_only_password` (authentication.py:718-740). -/
def edit_only_password (password confirm_password username email :
    Option String) : Bool :=
  password.isSome && confirm_password.isSome && !truthy username &&
    !truthy email

/-- `edit_username` (authentication.py:615-662): UPDATE username WHERE id;
returns whether any row matched. -/
def edit_username (username id : String) (db : Db) : Bool × Db :=
  (db.any (fun r => r.id == id),
    db.map fun r => if r.id == id then { r with username := username } else r)

/-- `edit_email` (authentication.py:665-715): uniqueness pre-check and shape
check, then UPDATE email WHERE id. -/
def edit_email (email id : String) (db : Db) : Bool × Db :=
  if !email_exists email db && validate_email email then
    (db.any (fun r => r.id == id),
      db.map fun r => if r.id == id then { r with email := email } else r)
  else (false, db)

/-- `edit_password` (authentication.py:743-794).  On a confirmation mismatch
the tuple unpack raises ValueError, which this function's own generic
handler re-raises as HTTPException 500. -/
def edit_password (freshSalt password confirm_password id : String) (db : Db) :
    Except PyErr (Bool × Db) :=
  match generate_new_hashed_password freshSalt password confirm_password with
  | .statusDict _ => .error (.http 500 ("Internal server error: " ++ unpackMsg))
  | .pair salty_password hashed_password =>
      .ok (db.any (fun r => r.id == id),
        db.map fun r =>
          if r.id == id then
            { r with password_salt := salty_password,
                     password_hash := hashed_password }
          else r)

/-- `edit_profile` (authentication.py:502-585).  Any exception out of
token_access or the edit helpers is re-wrapped as the generic 500; falling
off the end of the if/elif chain returns Python's implicit `None`. -/
def edit_profile (secret : String) (now : Nat) (freshSalt token : String)
    (inp : EditInput) (db : Db) : Resp × Db :=
  match token_access secret now token db with
  | .error e => (wrap500 e, db)
  | .ok none => (.json 404 [("Not Found", "User not found.")], db)
  | .ok (some id) =>
      if !(truthy inp.username || truthy inp.email || truthy inp.password ||
          truthy inp.confirm_password) then
        (.json 200 [("status", "No changes were made.")], db)
      else if edit_only_username_or_email inp.username inp.email inp.password
          inp.confirm_password then
        let res := edit_username (inp.username.getD "") id db
        if res.1 then
          (.json 200 [("detail", "OK: Username updated successfully.")], res.2)
        else (.json 500 [("detail", "Username is not updated, check id.")], res.2)
      else if edit_only_username_or_email inp.email inp.username inp.password
          inp.confirm_password then
        let res := edit_email (inp.email.getD "") id db
        if res.1 then
          (.json 200 [("detail", "OK: Email updated successfully.")], res.2)
        else
          (.json 500 [("detail", "Email is not updated, check id or email.")],
            res.2)
      else if edit_only_password inp.password inp.confirm_password inp.username
          inp.email then
        match edit_password freshSalt (inp.password.getD "")
            (inp.confirm_password.getD "") id db with
        | .error e => (wrap500 e, db)
        | .ok res =>
            if res.1 then
              (.json 200 [("detail", "OK: Password updated successfully.")],
                res.2)
            else
              (.json 500 [("detail", "Password is not updated, check id.")],
                res.2)
      else (.noneResp, db)

/-- `delete_account` (authentication.py:797-861).  The DELETE commits and
the connection is returned before the rowcount test, so the
`HTTPException(404)` raised on rowcount 0 is caught by the same function's
generic handler and re-wrapped as a 500. -/
def delete_account (secret : String) (now : Nat) (token : String) (db : Db) :
    Resp × Db :=
  match token_access secret now token db with
  | .error e => (wrap500 e, db)
  | .ok none => (.json 404 [("Not Found", "User not found.")], db)
  | .ok (some user_id) =>
      if user_id == "" then
        (wrap500 (.http 400 "Bad Request: User ID is required."), db)
      else
        let rowcount := db.countP (fun r => r.id == user_id)
        let db' := db.filter (fun r => !(r.id == user_id))
        if rowcount == 0 then
          (wrap500 (.http 404 "Not Found: User not found."), db')
        else (.json 200 [("detail", "OK: Account deleted successfully.")], db')

/-! ## The connection-pool effect

The same source functions, projected onto their `pool.getconn` /
`cursor.execute` / `pool.putconn` structure.  A computation threads the
number of currently acquired connections; a raised exception carries the
count at the raise point.  `cursor.execute` (together with the adjacent
`conn.commit`) is given a fault flag so that the failing-query exception
paths of the source can be exercised; all other steps are pure. -/

/-- A pooled-connection computation over the acquired-connection count. -/
def PoolM (α : Type) := Nat → Except (PyErr × Nat) (α × Nat)

/-- Sequencing with exception propagation. -/
def PoolM.bind (m : PoolM α) (f : α → PoolM β) : PoolM β := fun n =>
  match m n with
  | .ok (a, n') => f a n'
  | .error e => .error e

/-- Returning without touching the pool. -/
def PoolM.pure (a : α) : PoolM α := fun n => .ok (a, n)

instance : Monad PoolM where
  pure := PoolM.pure
  bind := PoolM.bind

/-- `pool.getconn()`. -/
def getconn : PoolM Unit := fun n => .ok ((), n + 1)

/-- `pool.putconn(conn)`. -/
def putconn : PoolM Unit := fun n => .ok ((), n - 1)

/-- `cursor.execute(...)` (with the adjacent commit/fetch): raises
psycopg2.Error when the fault flag is set. -/
def execQ (fails : Bool) : PoolM Unit := fun n =>
  if fails then .error (.dbErr "query failed", n) else .ok ((), n)

/-- `raise e`. -/
def raiseExc (e : PyErr) : PoolM α := fun n => .error (e, n)

/-- A `try: ... except ...:` block. -/
def tryCatch (m : PoolM α) (h : PyErr → PoolM α) : PoolM α := fun n =>
  match m n with
  | .ok r => .ok r
  | .error (e, n') => h e n'

/-- The final count after running `m` from `n` acquired connections,
whether `m` returns or raises. -/
def netCount (m : PoolM α) (n : Nat) : Nat :=
  match m n with
  | .ok (_, n') => n'
  | .error (_, n') => n'

/-- The paired `except psycopg2.Error` / `except Exception` clauses of the
endpoints: neither clause releases the connection. -/
def pyHandler {α} : PyErr → PoolM α
  | .dbErr _ => raiseExc (.http 500 "Database error")
  | e => raiseExc (.http 500 ("Internal server error: " ++ pyStr e))

/-- `email_exists`, pool view: acquire, query, release, inside a try whose
generic handler re-raises an HTTPException 500. -/
def email_exists_conn (fails : Bool) (email : String) (db : Db) : PoolM Bool :=
  tryCatch
    (do
      getconn
      execQ fails
      let result := email_exists email db
      putconn
      PoolM.pure result)
    (fun e => raiseExc (.http 500 ("Internal server error: " ++ pyStr e)))

/-- `signup`, pool view: the uniqueness pre-check runs through
email_exists's own acquire/release; the INSERT acquires and releases its own
connection on the non-duplicate, validation-passing branch. -/
def signup_conn (failsEmail failsInsert : Bool) (_freshUuid freshSalt : String)
    (inp : SignupInput) (db : Db) : PoolM Resp :=
  tryCatch
    (if !(truthy inp.username && truthy inp.email && truthy inp.password &&
        truthy inp.confirm_password) then
      PoolM.pure (.json 400 [("detail", "Bad request: All fields are required.")])
    else do
      let is_email ← email_exists_conn failsEmail (inp.email.getD "") db
      if !is_email then
        match generate_hashed_password freshSalt (inp.username.getD "")
            (inp.email.getD "") (inp.password.getD "")
            (inp.confirm_password.getD "") with
        | none => PoolM.pure (.json 403 [("detail", "Forbidden: Access forbidden.")])
        | some _ => do
            getconn
            execQ failsInsert
            putconn
            PoolM.pure (.json 201 [("detail", "Created: User created successfully")])
      else PoolM.pure (.json 400 [("detail", "Bad request: Email already exists.")]))
    pyHandler

/-- `get_user`, pool view: acquire, query, release, no exception handler of
its own. -/
def get_user_conn (fails : Bool) (secret username password : String) (db : Db) :
    PoolM (Option String) :=
  do
    getconn
    execQ fails
    putconn
    PoolM.pure (get_user secret username password db)

/-- `forgotten_password`, pool view: the email pre-check runs through
email_exists; the confirmation-mismatch ValueError fires before the UPDATE's
acquire; the UPDATE acquires and releases its own connection. -/
def forgotten_password_conn (failsEmail failsUpdate : Bool) (freshSalt : String)
    (inp : ForgotInput) (db : Db) : PoolM Resp :=
  tryCatch
    (if !(truthy inp.email && truthy inp.password && truthy inp.confirm_password) then
      PoolM.pure (.json 400 [("detail", "Bad request: All fields are required.")])
    else do
      let is_email ← email_exists_conn failsEmail (inp.email.getD "") db
      if !is_email then
        PoolM.pure (.json 403 [("detail", "Forbidden: Access forbidden.")])
      else
        match generate_new_hashed_password freshSalt (inp.password.getD "")
            (inp.confirm_password.getD "") with
        | .statusDict _ => raiseExc (.valueErr unpackMsg)
        | .pair _ _ => do
            getconn
            execQ failsUpdate
            putconn
            PoolM.pure (.json 200 [("detail", "OK: Password updated successfully")]))
    pyHandler

/-- `edit_username`, pool view. -/
def edit_username_conn (fails : Bool) (username id : String) (db : Db) :
    PoolM Bool :=
  tryCatch
    (do
      getconn
      execQ fails
      putconn
      PoolM.pure (edit_username username id db).1)
    pyHandler

/-- `edit_email`, pool view: the uniqueness pre-check runs through
email_exists; the UPDATE runs only when the pre-check and shape check pass. -/
def edit_email_conn (failsEmail failsUpdate : Bool) (email id : String)
    (db : Db) : PoolM Bool :=
  tryCatch
    (do
      let is_email ← email_exists_conn failsEmail email db
      if !is_email && validate_email email then do
        getconn
        execQ failsUpdate
        putconn
        PoolM.pure (edit_email email id db).1
      else PoolM.pure false)
    pyHandler

/-- `edit_password`, pool view: on a confirmation mismatch the ValueError
fires before the acquire and is re-raised by this function's own handler. -/
def edit_password_conn (fails : Bool) (freshSalt password confirm_password
    id : String) (db : Db) : PoolM Bool :=
  tryCatch
    (match generate_new_hashed_password freshSalt password confirm_password with
    | .statusDict _ => raiseExc (.valueErr unpackMsg)
    | .pair _ _ => do
        getconn
        execQ fails
        putconn
        PoolM.pure (db.any (fun r => r.id == id)))
    pyHandler

/-- `get_user_id`, pool view. -/
def get_user_id_conn (fails : Bool) (id : String) (db : Db) :
    PoolM (Option UserRow) :=
  tryCatch
    (do
      getconn
      execQ fails
      putconn
      PoolM.pure (get_user_id id db))
    (fun e => raiseExc (.http 500 ("Internal server error: " ++ pyStr e)))

/-- `token_access`, pool view: no connection of its own; the store lookup
runs through get_user_id. -/
def token_access_conn (failsGet : Bool) (secret : String) (now : Nat)
    (token : String) (db : Db) : PoolM (Option String) :=
  match jwt_decode secret [settings_ALGORITHM] now token with
  | .expired => raiseExc (.http 401 "Token expired")
  | .invalid => raiseExc (.http 403 "Forbidden: Invalid token")
  | .ok claims =>
      match claims.id with
      | some user_id =>
          if user_id == "" then PoolM.pure none
          else do
            let row? ← get_user_id_conn failsGet user_id db
            match row? with
            | none => raiseExc (.typeErr "NoneType object is not subscriptable")
            | some row =>
                if user_id == row.id then PoolM.pure (some user_id)
                else PoolM.pure none
      | none => PoolM.pure none

/-- `delete_account`, pool view: token resolution through get_user_id, then
the DELETE on its own connection, released before the rowcount test. -/
def delete_account_conn (failsGet failsDelete : Bool) (secret : String)
    (now : Nat) (token : String) (db : Db) : PoolM Resp :=
  tryCatch
    (do
      let v ← token_access_conn failsGet secret now token db
      match v with
      | none => PoolM.pure (.json 404 [("Not Found", "User not found.")])
      | some user_id =>
          if user_id == "" then
            raiseExc (.http 400 "Bad Request: User ID is required.")
          else do
            getconn
            execQ failsDelete
            putconn
            if db.countP (fun r => r.id == user_id) == 0 then
              raiseExc (.http 404 "Not Found: User not found.")
            else
              PoolM.pure (.json 200 [("detail", "OK: Account deleted successfully.")]))
    pyHandler

/-- Modelled from the spec (section 7): a business-rule failure such as
PasswordMismatch is handled locally and turned into a structured JSON
response; an uncaught exception instead surfaces as the raised 500
InternalFailure.  This classifier separates the two kinds. -/
def isHandledFailure : Resp → Bool
  | .json _ _ => true
  | _ => false

/-! ### Connection accounting (C9) -/

/-- Every exit path of `m` — returning or raising — restores the
acquired-connection count. -/
def Balanced {α} (m : PoolM α) : Prop := ∀ n, netCount m n = n

/-! ### Digest-length facts (used to exhibit hash mismatches without
evaluating the 10000-iteration derivation) -/

theorem wordBytes_length (w : Nat) : (wordBytes w).length = 4 := rfl

theorem sha256_length (msg : List Nat) : (sha256 msg).length = 32 := by
  simp [sha256, wordBytes]

theorem hmacSha256_length (key msg : List Nat) :
    (hmacSha256 key msg).length = 32 := by
  simp [hmacSha256, sha256_length]

theorem xorBytes_length (a b : List Nat) :
    (xorBytes a b).length = min a.length b.length := by
  simp [xorBytes]

theorem pbkdf2Loop_length (pw u acc : List Nat) (n : Nat)
    (hacc : acc.length = 32) :
    (pbkdf2Loop pw u acc n).length = 32 := by
  induction n generalizing u acc with
  | zero => simpa [pbkdf2Loop] using hacc
  | succ n ih =>
      rw [pbkdf2Loop]
      exact ih _ _ (by simp [xorBytes_length, hacc, hmacSha256_length])

theorem pbkdf2HmacSha256_length (pw salt : List Nat) (iters : Nat) :
    (pbkdf2HmacSha256 pw salt iters).length = 32 := by
  unfold pbkdf2HmacSha256
  exact pbkdf2Loop_length _ _ _ _ (hmacSha256_length _ _)

theorem bytesToHexChars_length (l : List Nat) :
    (bytesToHexChars l).length = 2 * l.length := by
  induction l with
  | nil => rfl
  | cons b t ih => simp [bytesToHexChars] at ih ⊢; omega

theorem password_hashing_length (p s : String) :
    (password_hashing p s).length = 64 := by
  show (String.mk (bytesToHexChars _)).length = 64
  simp [String.length, bytesToHexChars_length, pbkdf2HmacSha256_length]

theorem b64Val_b64Char : ∀ v < 64, b64Val (b64Char v) = some v := by decide

theorem b64Char_ne_dot : ∀ v < 64, b64Char v ≠ '.' := by decide

theorem b64Decode_b64Encode (l : List Nat) (h : ∀ b ∈ l, b < 256) :
    b64Decode (b64Encode l) = some l := by
  match l with
  | [] => rfl
  | [b0] =>
      have hb0 : b0 < 256 := h b0 (by simp)
      have h1 : b64Val (b64Char (b0 / 4)) = some (b0 / 4) :=
        b64Val_b64Char _ (by omega)
      have h2 : b64Val (b64Char (b0 % 4 * 16)) = some (b0 % 4 * 16) :=
        b64Val_b64Char _ (by omega)
      simp only [b64Encode, b64Decode, h1, h2, Option.some.injEq,
        List.cons.injEq, and_true]
      omega
  | [b0, b1] =>
      have hb0 : b0 < 256 := h b0 (by simp)
      have hb1 : b1 < 256 := h b1 (by simp)
      have h1 : b64Val (b64Char (b0 / 4)) = some (b0 / 4) :=
        b64Val_b64Char _ (by omega)
      have h2 : b64Val (b64Char (b0 % 4 * 16 + b1 / 16)) =
          some (b0 % 4 * 16 + b1 / 16) := b64Val_b64Char _ (by omega)
      have h3 : b64Val (b64Char (b1 % 16 * 4)) = some (b1 % 16 * 4) :=
        b64Val_b64Char _ (by omega)
      simp only [b64Encode, b64Decode, h1, h2, h3, Option.some.injEq,
        List.cons.injEq, and_true]
      omega
  | b0 :: b1 :: b2 :: rest =>
      have hb0 : b0 < 256 := h b0 (by simp)
      have hb1 : b1 < 256 := h b1 (by simp)
      have hb2 : b2 < 256 := h b2 (by simp)
      have ih := b64Decode_b64Encode rest (fun b hb => h b (by simp [hb]))
      have h1 : b64Val (b64Char (b0 / 4)) = some (b0 / 4) :=
        b64Val_b64Char _ (by omega)
      have h2 : b64Val (b64Char (b0 % 4 * 16 + b1 / 16)) =
          some (b0 % 4 * 16 + b1 / 16) := b64Val_b64Char _ (by omega)
      have h3 : b64Val (b64Char (b1 % 16 * 4 + b2 / 64)) =
          some (b1 % 16 * 4 + b2 / 64) := b64Val_b64Char _ (by omega)
      have h4 : b64Val (b64Char (b2 % 64)) = some (b2 % 64) :=
        b64Val_b64Char _ (by omega)
      simp only [b64Encode, b64Decode, h1, h2, h3, h4, ih, Option.some.injEq,
        List.cons.injEq, and_true]
      omega

theorem b64Encode_not_dot (l : List Nat) (h : ∀ b ∈ l, b < 256) :
    '.' ∉ b64Encode l := by
  match l with
  | [] => simp [b64Encode]
  | [b0] =>
      have hb0 : b0 < 256 := h b0 (by simp)
      simp only [b64Encode, List.mem_cons, List.not_mem_nil, or_false]
      push_neg
      exact ⟨(b64Char_ne_dot _ (by omega)).symm,
        (b64Char_ne_dot _ (by omega)).symm⟩
  | [b0, b1] =>
      have hb0 : b0 < 256 := h b0 (by simp)
      have hb1 : b1 < 256 := h b1 (by simp)
      simp only [b64Encode, List.mem_cons, List.not_mem_nil, or_false]
      push_neg
      exact ⟨(b64Char_ne_dot _ (by omega)).symm,
        (b64Char_ne_dot _ (by omega)).symm, (b64Char_ne_dot _ (by omega)).symm⟩
  | b0 :: b1 :: b2 :: rest =>
      have hb0 : b0 < 256 := h b0 (by simp)
      have hb1 : b1 < 256 := h b1 (by simp)
      have hb2 : b2 < 256 := h b2 (by simp)
      have ih := b64Encode_not_dot rest (fun b hb => h b (by simp [hb]))
      simp only [b64Encode, List.mem_cons] at ih ⊢
      push_neg
      refine ⟨(b64Char_ne_dot _ (by omega)).symm,
        (b64Char_ne_dot _ (by omega)).symm, (b64Char_ne_dot _ (by omega)).symm,
        (b64Char_ne_dot _ (by omega)).symm, ?_⟩
      intro hmem
      exact ih hmem

theorem splitOnChar_no_sep (sep : Char) (l : List Char) (h : sep ∉ l) :
    splitOnChar sep l = [l] := by
  induction l with
  | nil => rfl
  | cons c cs ih =>
      simp only [List.mem_cons] at h
      push_neg at h
      rw [splitOnChar, if_neg (fun hc => h.1 hc.symm), ih h.2]

theorem splitOnChar_append (sep : Char) (a r : List Char) (h : sep ∉ a) :
    splitOnChar sep (a ++ sep :: r) = a :: splitOnChar sep r := by
  induction a with
  | nil => simp [splitOnChar]
  | cons c cs ih =>
      simp only [List.mem_cons] at h
      push_neg at h
      rw [List.cons_append, splitOnChar, if_neg (fun hc => h.1 hc.symm),
        ih h.2]

theorem splitOnChar_three (a b c : List Char) (ha : '.' ∉ a) (hb : '.' ∉ b)
    (hc : '.' ∉ c) :
    splitOnChar '.' (a ++ '.' :: (b ++ '.' :: c)) = [a, b, c] := by
  rw [splitOnChar_append _ _ _ ha, splitOnChar_append _ _ _ hb,
    splitOnChar_no_sep _ _ hc]

theorem parseStringLit_append (s r : List Char)
    (h : ∀ c ∈ s, c ≠ '"' ∧ c ≠ '\\') :
    parseStringLit (s ++ '"' :: r) = some (s, r) := by
  induction s with
  | nil => simp [parseStringLit]
  | cons c cs ih =>
      simp only [List.mem_cons] at h
      have hc := h c (Or.inl rfl)
      rw [List.cons_append, parseStringLit.eq_def]
      simp only [if_neg hc.1, if_neg hc.2, ih (fun x hx => h x (Or.inr hx))]

/-! ### Verify-after-issue factoring -/

theorem sha256_bytes_lt (msg : List Nat) : ∀ b ∈ sha256 msg, b < 256 := by
  intro b hb
  simp only [sha256, wordBytes, List.append_assoc, List.mem_append,
    List.mem_cons, List.not_mem_nil, or_false] at hb
  rcases hb with h | h | h | h | h | h | h | h <;>
    rcases h with h | h | h | h <;> subst h <;> exact Nat.mod_lt _ (by norm_num)

theorem hmacSha256_bytes_lt (key msg : List Nat) :
    ∀ b ∈ hmacSha256 key msg, b < 256 := by
  intro b hb
  exact sha256_bytes_lt _ b hb

theorem charsToBytes_map_ofNat (l : List Char) :
    (charsToBytes l).map Char.ofNat = l := by
  simp [charsToBytes, List.map_map, Function.comp_def, Char.ofNat_toNat]

/-- Decoding any token issued by the repository's issuer, with the issuer's
secret and algorithm list, reduces to parsing the payload and checking its
`exp` claim: segmentation, base64url transport, header algorithm check and
signature verification all succeed. -/
theorem jwt_decode_encodePayload (secret : String) (payload : List Char)
    (now : Nat) (hp : ∀ c ∈ payload, c.toNat < 256) :
    jwt_decode secret [settings_ALGORITHM] now (jwtEncodePayload secret payload) =
      match parseClaims payload with
      | some c =>
          match c.exp with
          | some e => if e < now then JwtOut.expired else JwtOut.ok c
          | none => JwtOut.ok c
      | none => JwtOut.invalid := by
  have hhb : ∀ b ∈ charsToBytes (headerChars settings_ALGORITHM), b < 256 := by
    decide
  have hpb : ∀ b ∈ charsToBytes payload, b < 256 := by
    intro b hb
    simp only [charsToBytes, List.mem_map] at hb
    obtain ⟨c, hc, rfl⟩ := hb
    exact hp c hc
  unfold jwt_decode jwtEncodePayload
  have hsig := hmacSha256_bytes_lt (utf8Bytes secret)
    (charsToBytes (b64Encode (charsToBytes (headerChars settings_ALGORITHM)) ++
      '.' :: b64Encode (charsToBytes payload)))
  rw [show (String.mk (b64Encode (charsToBytes (headerChars settings_ALGORITHM)) ++
      '.' :: (b64Encode (charsToBytes payload) ++ '.' ::
        b64Encode (hmacSha256 (utf8Bytes secret)
          (charsToBytes (b64Encode (charsToBytes (headerChars settings_ALGORITHM)) ++
            '.' :: b64Encode (charsToBytes payload))))))).data =
      b64Encode (charsToBytes (headerChars settings_ALGORITHM)) ++
      '.' :: (b64Encode (charsToBytes payload) ++ '.' ::
        b64Encode (hmacSha256 (utf8Bytes secret)
          (charsToBytes (b64Encode (charsToBytes (headerChars settings_ALGORITHM)) ++
            '.' :: b64Encode (charsToBytes payload))))) from rfl]
  rw [splitOnChar_three _ _ _ (b64Encode_not_dot _ hhb) (b64Encode_not_dot _ hpb)
    (b64Encode_not_dot _ (hmacSha256_bytes_lt _ _))]
  dsimp only
  rw [b64Decode_b64Encode _ hhb, b64Decode_b64Encode _ hpb,
    b64Decode_b64Encode _ (hmacSha256_bytes_lt _ _)]
  dsimp only
  rw [charsToBytes_map_ofNat, charsToBytes_map_ofNat]
  have halg : parseHeaderAlg (headerChars settings_ALGORITHM) =
      some settings_ALGORITHM.data := by decide
  rw [halg]
  dsimp only
  rw [if_pos (show String.mk settings_ALGORITHM.data ∈ [settings_ALGORITHM] by
    decide)]
  rw [if_pos rfl]

theorem parseClaims_id_form (s : List Char) (h : ∀ c ∈ s, c ≠ '"' ∧ c ≠ '\\') :
    parseClaims ('{' :: '"' :: 'i' :: 'd' :: '"' :: ':' :: '"' ::
      (s ++ '"' :: ['}'])) = some ⟨some (String.mk s), none⟩ := by
  have h1 : parseClaims ('{' :: '"' :: 'i' :: 'd' :: '"' :: ':' :: '"' ::
      (s ++ '"' :: ['}'])) =
      (match parseMember ('"' :: 'i' :: 'd' :: '"' :: ':' :: '"' ::
          (s ++ '"' :: ['}'])) with
       | some (m1, r1) =>
          match r1 with
          | '}' :: [] => some (applyMember ⟨none, none⟩ m1)
          | ',' :: r2 =>
              match parseMember r2 with
              | some (m2, '}' :: []) =>
                  some (applyMember (applyMember ⟨none, none⟩ m1) m2)
              | _ => none
          | _ => none
       | none => none) := rfl
  have h2 : parseMember ('"' :: 'i' :: 'd' :: '"' :: ':' :: '"' ::
      (s ++ '"' :: ['}'])) =
      (match parseStringLit (s ++ '"' :: ['}']) with
       | some (sx, rr) => some (.idM sx, rr)
       | none => none) := rfl
  rw [h1, h2, parseStringLit_append _ _ h]
  rfl

theorem parseClaims_serialize_id (i : String)
    (h : ∀ c ∈ i.data, c ≠ '"' ∧ c ≠ '\\') :
    parseClaims (serializeClaims ⟨some i, none⟩) = some ⟨some i, none⟩ := by
  have hs : serializeClaims ⟨some i, none⟩ =
      '{' :: '"' :: 'i' :: 'd' :: '"' :: ':' :: '"' ::
        (i.data ++ '"' :: ['}']) := rfl
  rw [hs, parseClaims_id_form i.data h]

theorem validId_chars (s : String) (h : validId s = true) :
    ∀ c ∈ s.data, c.toNat < 256 ∧ c ≠ '"' ∧ c ≠ '\\' := by
  intro c hc
  simp only [validId, Bool.and_eq_true, List.all_eq_true] at h
  have := h.2 c hc
  simp only [validIdChar, Bool.and_eq_true, decide_eq_true_eq,
    Nat.le_iff_lt_or_eq] at this
  refine ⟨by omega, ?_, ?_⟩
  · simpa using this.1.2
  · simpa using this.2

/-- Issue-then-verify round trip: decoding a token issued for id `X` with the
same secret and algorithm yields exactly the single claim `{id: X}`. -/
theorem jwt_roundtrip (secret X : String) (now : Nat) (hX : validId X = true) :
    jwt_decode secret [settings_ALGORITHM] now (jwt_token_generalization secret X) =
      JwtOut.ok ⟨some X, none⟩ := by
  have hchars := validId_chars X hX
  unfold jwt_token_generalization
  rw [jwt_decode_encodePayload]
  · rw [parseClaims_serialize_id X (fun c hc => (hchars c hc).2)]
  · intro c hcm
    show c.toNat < 256
    have hsub : serializeClaims ⟨some X, none⟩ =
        ('{' :: '"' :: 'i' :: 'd' :: '"' :: ':' :: '"' :: []) ++
          X.data ++ ['"', '}'] := by
      simp [serializeClaims]
    rw [hsub] at hcm
    rcases List.mem_append.mp hcm with hl | hr
    · rcases List.mem_append.mp hl with hp | hx
      · exact (by decide :
          ∀ x ∈ ('{' :: '"' :: 'i' :: 'd' :: '"' :: ':' :: '"' :: []),
            x.toNat < 256) c hp
      · exact (hchars c hx).1
    · exact (by decide : ∀ x ∈ ['"', '}'], x.toNat < 256) c hr

/-- Decoding a correctly signed token that carries the `exp` claim 0 at any
later wall-clock time yields the expired outcome. -/
theorem jwt_decode_exp0 (secret : String) :
    jwt_decode secret [settings_ALGORITHM] 1
      (jwtEncodePayload secret (serializeClaims ⟨none, some 0⟩)) =
      JwtOut.expired := by
  rw [jwt_decode_encodePayload _ _ _ (by decide)]
  decide

/-! ## Shared facts about token-gated resolution -/

theorem validId_beq_empty_false (s : String) (h : validId s = true) :
    (s == "") = false := by
  simp only [validId, Bool.and_eq_true] at h
  simpa using h.1

/-- token_access on a token the issuer produced for id `X`: decoding
succeeds, so the outcome is decided by the store lookup. -/
theorem token_access_encode (secret X : String) (now : Nat) (db : Db)
    (hX : validId X = true) :
    token_access secret now (jwt_token_generalization secret X) db =
      match get_user_id X db with
      | none => .error (.typeErr "NoneType object is not subscriptable")
      | some row =>
          if X == row.id then .ok (some X) else .ok none := by
  unfold token_access
  rw [jwt_roundtrip secret X now hX]
  dsimp only
  rw [validId_beq_empty_false X hX]
  simp only [Bool.false_eq_true, if_false]

theorem get_user_id_absent (X : String) (db : Db) (habs : ∀ r ∈ db, r.id ≠ X) :
    get_user_id X db = none := by
  unfold get_user_id
  rw [List.find?_eq_none]
  intro r hr
  simpa using habs r hr

theorem token_access_absent (secret X : String) (now : Nat) (db : Db)
    (hX : validId X = true) (habs : ∀ r ∈ db, r.id ≠ X) :
    token_access secret now (jwt_token_generalization secret X) db =
      .error (.typeErr "NoneType object is not subscriptable") := by
  rw [token_access_encode secret X now db hX, get_user_id_absent X db habs]

theorem token_access_found (secret X : String) (now : Nat) (db : Db)
    (r : UserRow) (hX : validId X = true) (hfind : get_user_id X db = some r)
    (hid : r.id = X) :
    token_access secret now (jwt_token_generalization secret X) db =
      .ok (some X) := by
  rw [token_access_encode secret X now db hX, hfind]
  simp [hid]

/-! ## The claims -/

/-- C3: for every valid id X, decoding and verifying a token issued with the
single claim {id: X} (jwt_token_generalization followed by jwt.decode with
the same server secret and algorithm) yields exactly the claim {id: X}. -/
theorem c3_issue_decode_roundtrip (secret X : String) (now : Nat)
    (hX : validId X = true) :
    jwt_decode secret [settings_ALGORITHM] now
      (jwt_token_generalization secret X) = JwtOut.ok ⟨some X, none⟩ :=
  jwt_roundtrip secret X now hX

/-- Witness for C3 at the concrete id "a" and secret "k". -/
theorem c3_witness :
    validId "a" = true ∧
    jwt_decode "k" [settings_ALGORITHM] 0 (jwt_token_generalization "k" "a") =
      JwtOut.ok ⟨some "a", none⟩ :=
  ⟨by decide, c3_issue_decode_roundtrip "k" "a" 0 (by decide)⟩

/-- C8: password_hashing is deterministic (equal inputs give identical
output) and computes PBKDF2-HMAC with the SHA-256 digest, an iteration count
of at least 10000, hex-encoding the derived key. -/
theorem c8_password_hashing_pbkdf2 :
    (∀ p1 s1 p2 s2 : String, p1 = p2 → s1 = s2 →
      password_hashing p1 s1 = password_hashing p2 s2) ∧
    ∃ iters, 10000 ≤ iters ∧
      ∀ p s, password_hashing p s =
        bytesToHex (pbkdf2HmacSha256 (utf8Bytes p) (utf8Bytes s) iters) :=
  ⟨fun _ _ _ _ hp hs => by rw [hp, hs], 10000, Nat.le_refl _, fun _ _ => rfl⟩

/-- Witness for C8 at concrete inputs. -/
theorem c8_witness :
    ("pw" : String) = "pw" ∧ ("salt" : String) = "salt" ∧
    password_hashing "pw" "salt" = password_hashing "pw" "salt" :=
  ⟨rfl, rfl, c8_password_hashing_pbkdf2.1 "pw" "salt" "pw" "salt" rfl rfl⟩

/-- C1, settled as a code bug: for a correctly signed token whose claimed id
has no row, get_user_id returns None, token_access subscripts it
(`db_user_id[0]`) and raises TypeError, and edit_profile's catch-all turns
that into a 500 response — not the 404 not-found condition the specification
describes (the `db_user_id[0] is None` branch meant to yield "no identity"
is unreachable because the subscript raises first). -/
theorem c1_unknown_id_typeerror_500 (secret X freshSalt : String) (now : Nat)
    (inp : EditInput) (db : Db) (hX : validId X = true)
    (habs : ∀ r ∈ db, r.id ≠ X) :
    token_access secret now (jwt_token_generalization secret X) db =
      .error (.typeErr "NoneType object is not subscriptable") ∧
    edit_profile secret now freshSalt (jwt_token_generalization secret X)
        inp db =
      (.err 500 "Internal server error: NoneType object is not subscriptable",
        db) := by
  have hta := token_access_absent secret X now db hX habs
  refine ⟨hta, ?_⟩
  unfold edit_profile
  rw [hta]
  rfl

/-- Witness for C1 at the concrete id "a", secret "k" and the empty store. -/
theorem c1_witness :
    validId "a" = true ∧
    token_access "k" 0 (jwt_token_generalization "k" "a") [] =
      .error (.typeErr "NoneType object is not subscriptable") ∧
    edit_profile "k" 0 "s" (jwt_token_generalization "k" "a")
        ⟨none, none, none, none⟩ [] =
      (.err 500 "Internal server error: NoneType object is not subscriptable",
        []) :=
  ⟨by decide,
    c1_unknown_id_typeerror_500 "k" "a" "s" 0 ⟨none, none, none, none⟩ []
      (by decide) (by intro r hr; exact absurd hr (List.not_mem_nil r))⟩

/-- C5, settled as a code bug: an authenticated delete-account request whose
token id has no row leaves the store unchanged, but responds 500 (the
TypeError out of token_access, re-wrapped by the catch-all), not the 404 the
specification describes. -/
theorem c5_delete_absent_id_500 (secret X : String) (now : Nat) (db : Db)
    (hX : validId X = true) (habs : ∀ r ∈ db, r.id ≠ X) :
    delete_account secret now (jwt_token_generalization secret X) db =
      (.err 500 "Internal server error: NoneType object is not subscriptable",
        db) := by
  have hta := token_access_absent secret X now db hX habs
  unfold delete_account
  rw [hta]
  rfl

/-- C2: a login whose username matches a stored row but whose password,
hashed with the row's stored salt, differs from the stored hash, is answered
with the 401 Unauthorized response — the function's single deterministic
outcome on these inputs, so no token is ever produced. -/
theorem c2_wrong_password_401 (secret : String) (inp : LoginInput) (db : Db)
    (r : UserRow) (hu : truthy inp.username = true)
    (hp : truthy inp.password = true)
    (hfind : db.find? (fun row => row.username == inp.username.getD "") = some r)
    (hmismatch : password_hashing (inp.password.getD "") r.password_salt ≠
      r.password_hash) :
    login secret inp db = .json 401 [("detail", "Unauthorized")] := by
  unfold login get_user
  rw [hu, hp, hfind]
  have hck : check_passwords_equality r.password_hash
      (password_hashing (inp.password.getD "") r.password_salt) = false := by
    unfold check_passwords_equality
    exact beq_eq_false_iff_ne.mpr (Ne.symm hmismatch)
  simp only [hck, Bool.not_true, Bool.or_self, Bool.false_eq_true, if_false]

/-- Witness for C2: a store whose single row has a stored hash of length 1,
which no 64-character password_hashing output can equal. -/
theorem c2_witness :
    password_hashing "p" "s" ≠ "h" ∧
    login "k" ⟨some "u", some "p"⟩ [⟨"i", "u", "e", "s", "h"⟩] =
      Resp.json 401 [("detail", "Unauthorized")] := by
  have hm : password_hashing "p" "s" ≠ "h" := fun heq => by
    have hl := password_hashing_length "p" "s"
    rw [heq] at hl
    exact absurd hl (by decide)
  exact ⟨hm, c2_wrong_password_401 "k" ⟨some "u", some "p"⟩
    [⟨"i", "u", "e", "s", "h"⟩] ⟨"i", "u", "e", "s", "h"⟩ (by decide) (by decide)
    (by decide) hm⟩

/-- C4, settled as a code bug: token_access itself raises HTTPException 401
for an expired token and 403 for an invalid one, but fastapi's HTTPException
subclasses Exception, so the calling endpoints' trailing `except Exception`
catches both and re-raises them as 500 responses — edit_profile's own
docstring promises 403 for a bad token, yet both failures surface as 500
(distinguished only by the interpolated message). -/
theorem c4_token_failures_wrapped_as_500 :
    edit_profile "k" 1 "ns"
        (jwtEncodePayload "k" (serializeClaims ⟨none, some 0⟩))
        ⟨none, none, none, none⟩ [] =
      (.err 500 "Internal server error: 401: Token expired", []) ∧
    edit_profile "k" 1 "ns" "garbage" ⟨none, none, none, none⟩ [] =
      (.err 500 "Internal server error: 403: Forbidden: Invalid token", []) ∧
    delete_account "k" 1
        (jwtEncodePayload "k" (serializeClaims ⟨none, some 0⟩)) [] =
      (.err 500 "Internal server error: 401: Token expired", []) ∧
    delete_account "k" 1 "garbage" [] =
      (.err 500 "Internal server error: 403: Forbidden: Invalid token", []) := by
  have hexp := jwt_decode_exp0 "k"
  have hinv : jwt_decode "k" [settings_ALGORITHM] 1 "garbage" = .invalid := by
    decide
  refine ⟨?_, ?_, ?_, ?_⟩
  · unfold edit_profile token_access
    rw [hexp]
    rfl
  · unfold edit_profile token_access
    rw [hinv]
    rfl
  · unfold delete_account token_access
    rw [hexp]
    rfl
  · unfold delete_account token_access
    rw [hinv]
    rfl

/-- C6 counterexample: with every field present, a stored row matching the
email, and password ≠ confirm_password, the flow does not produce a handled
PasswordMismatch response — the one-key status dict returned by
generate_new_hashed_password is tuple-unpacked, raising ValueError, which
the endpoint re-raises as the generic 500; the row's salt and hash are
unchanged. -/
theorem c6_counterexample :
    (forgotten_password "ns" ⟨some "a@b.co", some "x", some "y"⟩
        [⟨"i", "u", "a@b.co", "s", "h"⟩]).1 =
      Resp.err 500 ("Internal server error: " ++ unpackMsg) ∧
    isHandledFailure (forgotten_password "ns"
        ⟨some "a@b.co", some "x", some "y"⟩
        [⟨"i", "u", "a@b.co", "s", "h"⟩]).1 = false ∧
    (forgotten_password "ns" ⟨some "a@b.co", some "x", some "y"⟩
        [⟨"i", "u", "a@b.co", "s", "h"⟩]).2 =
      [⟨"i", "u", "a@b.co", "s", "h"⟩] := by
  refine ⟨by decide, by decide, by decide⟩

/-- C6 as amended: on a present-field request whose email matches a row and
whose password differs from its confirmation, forgotten_password raises the
generic 500 internal error (the ValueError from unpacking the status dict),
and the store — in particular the matched row's password_salt and
password_hash — is unchanged. -/
theorem c6_mismatch_500_store_unchanged (freshSalt : String)
    (inp : ForgotInput) (db : Db) (he : truthy inp.email = true)
    (hp : truthy inp.password = true) (hc : truthy inp.confirm_password = true)
    (hex : email_exists (inp.email.getD "") db = true)
    (hne : inp.password.getD "" ≠ inp.confirm_password.getD "") :
    forgotten_password freshSalt inp db =
      (.err 500 ("Internal server error: " ++ unpackMsg), db) := by
  unfold forgotten_password generate_new_hashed_password
  have hck : check_passwords_equality (inp.password.getD "")
      (inp.confirm_password.getD "") = false := by
    unfold check_passwords_equality
    exact beq_eq_false_iff_ne.mpr hne
  simp only [he, hp, hc, hex, hck, Bool.and_self, Bool.not_true,
    Bool.false_eq_true, if_false, wrap500, pyStr]

/-- Witness for C6 as amended, at the counterexample's concrete input. -/
theorem c6_witness :
    email_exists "c@d.co" [⟨"j", "v", "c@d.co", "s2", "h2"⟩] = true ∧
    ("x1" : String) ≠ "y1" ∧
    forgotten_password "ns2" ⟨some "c@d.co", some "x1", some "y1"⟩
        [⟨"j", "v", "c@d.co", "s2", "h2"⟩] =
      (.err 500 ("Internal server error: " ++ unpackMsg),
        [⟨"j", "v", "c@d.co", "s2", "h2"⟩]) :=
  ⟨by decide, by decide,
    c6_mismatch_500_store_unchanged "ns2" ⟨some "c@d.co", some "x1", some "y1"⟩
      [⟨"j", "v", "c@d.co", "s2", "h2"⟩] (by decide) (by decide) (by decide)
      (by decide) (by decide)⟩

/-- C7 counterexample: the edit-profile guards test truthiness, not
non-nullness, so a request carrying the non-null (but empty) username ""
together with a fresh valid email is routed into the email edit: a field of
the row changes and the response reports the update — not the no-op the
claim requires for two simultaneously non-null fields. -/
theorem c7_counterexample :
    ((⟨some "", some "new@x.co", none, none⟩ : EditInput).username ≠ none) ∧
    ((⟨some "", some "new@x.co", none, none⟩ : EditInput).email ≠ none) ∧
    edit_profile "k" 0 "ns" (jwt_token_generalization "k" "i")
        ⟨some "", some "new@x.co", none, none⟩
        [⟨"i", "u", "old@x.co", "s", "h"⟩] =
      (.json 200 [("detail", "OK: Email updated successfully.")],
        [⟨"i", "u", "new@x.co", "s", "h"⟩]) ∧
    ([(⟨"i", "u", "new@x.co", "s", "h"⟩ : UserRow)] ≠
      [(⟨"i", "u", "old@x.co", "s", "h"⟩ : UserRow)]) := by
  refine ⟨by decide, by decide, ?_, by decide⟩
  have hta := token_access_found "k" "i" 0 [⟨"i", "u", "old@x.co", "s", "h"⟩]
    ⟨"i", "u", "old@x.co", "s", "h"⟩ (by decide) (by decide) rfl
  unfold edit_profile
  rw [hta]
  decide

/-- C7 as amended: when two or more of {username, email, password} are
truthy (present and nonempty), every guard of the edit chain is false, the
request falls off the if/elif chain as Python's implicit None and the store
is unchanged — but a non-null empty-string field counts as absent, not as
supplied (see the counterexample). -/
theorem c7_two_truthy_noop (secret freshSalt token : String) (now : Nat)
    (inp : EditInput) (db : Db) (uid : String)
    (hta : token_access secret now token db = .ok (some uid))
    (h2 : ((truthy inp.username && truthy inp.email) ||
           (truthy inp.username && truthy inp.password) ||
           (truthy inp.email && truthy inp.password)) = true) :
    edit_profile secret now freshSalt token inp db = (.noneResp, db) := by
  unfold edit_profile
  rw [hta]
  simp only [Bool.or_eq_true, Bool.and_eq_true] at h2
  have hmiss : (truthy inp.username || truthy inp.email || truthy inp.password ||
      truthy inp.confirm_password) = true := by
    rcases h2 with (⟨h, h'⟩ | ⟨h, h'⟩) | ⟨h, h'⟩ <;> simp [h, h']
  have hg1 : edit_only_username_or_email inp.username inp.email inp.password
      inp.confirm_password = false := by
    unfold edit_only_username_or_email
    rcases h2 with (⟨_, h⟩ | ⟨_, h⟩) | ⟨h, _⟩ <;> simp [h]
  have hg2 : edit_only_username_or_email inp.email inp.username inp.password
      inp.confirm_password = false := by
    unfold edit_only_username_or_email
    rcases h2 with (⟨h, _⟩ | ⟨h, _⟩) | ⟨_, h⟩ <;> simp [h]
  have hg3 : edit_only_password inp.password inp.confirm_password inp.username
      inp.email = false := by
    unfold edit_only_password
    rcases h2 with (⟨h, _⟩ | ⟨h, _⟩) | ⟨h, _⟩ <;> simp [h]
  simp only [hmiss, Bool.not_true, Bool.false_eq_true, if_false, hg1, hg2, hg3]

/-- Witness for C7 as amended: a truthy username and a truthy email together
yield the implicit-None no-op and an unchanged store. -/
theorem c7_witness :
    token_access "k" 0 (jwt_token_generalization "k" "w")
        [⟨"w", "u", "e@x.co", "s", "h"⟩] = .ok (some "w") ∧
    ((truthy (some "a") && truthy (some "b")) ||
     (truthy (some "a") && truthy (none : Option String)) ||
     (truthy (some "b") && truthy (none : Option String))) = true ∧
    edit_profile "k" 0 "ns" (jwt_token_generalization "k" "w")
        ⟨some "a", some "b", none, none⟩ [⟨"w", "u", "e@x.co", "s", "h"⟩] =
      (.noneResp, [⟨"w", "u", "e@x.co", "s", "h"⟩]) := by
  have hta := token_access_found "k" "w" 0 [⟨"w", "u", "e@x.co", "s", "h"⟩]
    ⟨"w", "u", "e@x.co", "s", "h"⟩ (by decide) (by decide) rfl
  exact ⟨hta, by decide,
    c7_two_truthy_noop "k" "ns" (jwt_token_generalization "k" "w") 0
      ⟨some "a", some "b", none, none⟩ [⟨"w", "u", "e@x.co", "s", "h"⟩] "w" hta
      (by decide)⟩

theorem truthy_eq_false (o : Option String) (h : o = none ∨ o = some "") :
    truthy o = false := by
  rcases h with rfl | rfl <;> rfl

/-- C10: in signup, login and forgotten-password a required field that is
absent or bound to the empty string fails the truthiness conjunction, so the
endpoint answers the 400 missing-fields response before any validation or
store access, and the store is returned unchanged. -/
theorem c10_empty_field_is_missing :
    (∀ freshUuid freshSalt (inp : SignupInput) (db : Db),
      ((inp.username = none ∨ inp.username = some "") ∨
       (inp.email = none ∨ inp.email = some "") ∨
       (inp.password = none ∨ inp.password = some "") ∨
       (inp.confirm_password = none ∨ inp.confirm_password = some "")) →
      signup freshUuid freshSalt inp db =
        (.json 400 [("detail", "Bad request: All fields are required.")], db)) ∧
    (∀ secret (inp : LoginInput) (db : Db),
      ((inp.username = none ∨ inp.username = some "") ∨
       (inp.password = none ∨ inp.password = some "")) →
      login secret inp db = .json 400 [("detail", "Bad request")]) ∧
    (∀ freshSalt (inp : ForgotInput) (db : Db),
      ((inp.email = none ∨ inp.email = some "") ∨
       (inp.password = none ∨ inp.password = some "") ∨
       (inp.confirm_password = none ∨ inp.confirm_password = some "")) →
      forgotten_password freshSalt inp db =
        (.json 400 [("detail", "Bad request: All fields are required.")], db)) := by
  refine ⟨?_, ?_, ?_⟩
  · intro fu fs inp db h
    unfold signup
    rcases h with h | h | h | h <;> simp [truthy_eq_false _ h]
  · intro secret inp db h
    unfold login
    rcases h with h | h <;> simp [truthy_eq_false _ h]
  · intro fs inp db h
    unfold forgotten_password
    rcases h with h | h | h <;> simp [truthy_eq_false _ h]

/-- Witness for C10: an absent username at signup, an empty-string username
at login, an absent email at forgotten-password. -/
theorem c10_witness :
    ((none : Option String) = none ∨ (none : Option String) = some "") ∧
    signup "fu" "fs" ⟨none, some "e", some "p", some "c"⟩ [] =
      (.json 400 [("detail", "Bad request: All fields are required.")], []) ∧
    login "k" ⟨some "", some "p"⟩ [] = .json 400 [("detail", "Bad request")] ∧
    forgotten_password "fs" ⟨none, some "p", some "c"⟩ [] =
      (.json 400 [("detail", "Bad request: All fields are required.")], []) :=
  ⟨Or.inl rfl,
    c10_empty_field_is_missing.1 "fu" "fs" ⟨none, some "e", some "p", some "c"⟩
      [] (Or.inl (Or.inl rfl)),
    c10_empty_field_is_missing.2.1 "k" ⟨some "", some "p"⟩ []
      (Or.inl (Or.inr rfl)),
    c10_empty_field_is_missing.2.2 "fs" ⟨none, some "p", some "c"⟩ []
      (Or.inl (Or.inl rfl))⟩

theorem balanced_raise {α} (e : PyErr) : Balanced (raiseExc (α := α) e) :=
  fun _ => rfl

theorem balanced_poolPure {α} (a : α) : Balanced (PoolM.pure a) := fun _ => rfl

theorem balanced_bind {α β} {m : PoolM α} {f : α → PoolM β} (hm : Balanced m)
    (hf : ∀ a, Balanced (f a)) : Balanced (m >>= f) := by
  intro n
  have hm' := hm n
  show netCount (PoolM.bind m f) n = n
  unfold netCount PoolM.bind
  unfold netCount at hm'
  cases hmn : m n with
  | ok r =>
      rw [hmn] at hm'
      obtain ⟨a, n'⟩ := r
      dsimp only at hm' ⊢
      subst hm'
      exact hf a n'
  | error e =>
      rw [hmn] at hm'
      exact hm'

theorem balanced_tryCatch {α} {m : PoolM α} {h : PyErr → PoolM α}
    (hm : Balanced m) (hh : ∀ e, Balanced (h e)) : Balanced (tryCatch m h) := by
  intro n
  have hm' := hm n
  unfold netCount tryCatch at *
  cases hmn : m n with
  | ok r =>
      rw [hmn] at hm'
      exact hm'
  | error e =>
      rw [hmn] at hm'
      obtain ⟨e1, n'⟩ := e
      dsimp only at hm' ⊢
      subst hm'
      exact hh e1 n'

theorem balanced_ite {α} {c : Prop} [Decidable c] {a b : PoolM α}
    (ha : Balanced a) (hb : Balanced b) : Balanced (if c then a else b) := by
  by_cases hc : c
  · simpa [hc] using ha
  · simpa [hc] using hb

theorem balanced_pyHandler {α} : ∀ e, Balanced (pyHandler (α := α) e) := by
  intro e
  cases e <;> exact balanced_raise _

theorem balanced_email_exists_conn (email : String) (db : Db) :
    Balanced (email_exists_conn false email db) := by
  apply balanced_tryCatch
  · intro n
    rfl
  · intro e
    exact balanced_raise _

theorem balanced_get_user_id_conn (id : String) (db : Db) :
    Balanced (get_user_id_conn false id db) := by
  apply balanced_tryCatch
  · intro n
    rfl
  · intro e
    exact balanced_raise _

theorem balanced_token_access_conn (secret : String) (now : Nat)
    (token : String) (db : Db) :
    Balanced (token_access_conn false secret now token db) := by
  unfold token_access_conn
  cases jwt_decode secret [settings_ALGORITHM] now token with
  | expired => exact balanced_raise _
  | invalid => exact balanced_raise _
  | ok claims =>
      dsimp only
      cases claims.id with
      | none => exact balanced_poolPure _
      | some uid =>
          dsimp only
          apply balanced_ite
          · exact balanced_poolPure _
          · apply balanced_bind (balanced_get_user_id_conn _ _)
            intro row?
            cases row? with
            | none => exact balanced_raise _
            | some row =>
                apply balanced_ite <;> exact balanced_poolPure _

/-- C9 counterexample: in `email_exists` a query that raises after
`pool.getconn()` exits through the exception handler without
`pool.putconn(conn)` — the acquired-connection count ends at 1, not at the
prior 0: the connection leaks on this exception path. -/
theorem c9_counterexample :
    email_exists_conn true "e" [] 0 =
      .error (.http 500 "Internal server error: query failed", 1) ∧
    (1 : Nat) ≠ 0 :=
  ⟨rfl, by decide⟩

/-- C9 as amended: when no database call raises, every one of the nine
acquiring operations restores the acquired-connection count on every branch
(including the branches that raise for non-database reasons, such as the
password-mismatch ValueError); the release is skipped only when a query
raises between acquire and release (see the counterexample). -/
theorem c9_faultfree_release_balanced :
    (∀ email db n, netCount (email_exists_conn false email db) n = n) ∧
    (∀ fu fs inp db n, netCount (signup_conn false false fu fs inp db) n = n) ∧
    (∀ secret u p db n, netCount (get_user_conn false secret u p db) n = n) ∧
    (∀ fs inp db n,
      netCount (forgotten_password_conn false false fs inp db) n = n) ∧
    (∀ u i db n, netCount (edit_username_conn false u i db) n = n) ∧
    (∀ e i db n, netCount (edit_email_conn false false e i db) n = n) ∧
    (∀ fs p cp i db n,
      netCount (edit_password_conn false fs p cp i db) n = n) ∧
    (∀ i db n, netCount (get_user_id_conn false i db) n = n) ∧
    (∀ secret now tok db n,
      netCount (delete_account_conn false false secret now tok db) n = n) := by
  refine ⟨?_, ?_, ?_, ?_, ?_, ?_, ?_, ?_, ?_⟩
  · intro email db n
    exact balanced_email_exists_conn email db n
  · intro fu fs inp db n
    refine balanced_tryCatch ?_ balanced_pyHandler n
    apply balanced_ite
    · exact balanced_poolPure _
    · apply balanced_bind (balanced_email_exists_conn _ _)
      intro is_email
      apply balanced_ite
      · cases generate_hashed_password fs (inp.username.getD "")
            (inp.email.getD "") (inp.password.getD "")
            (inp.confirm_password.getD "") with
        | none => exact balanced_poolPure _
        | some p =>
            intro m
            rfl
      · exact balanced_poolPure _
  · intro secret u p db n
    rfl
  · intro fs inp db n
    refine balanced_tryCatch ?_ balanced_pyHandler n
    apply balanced_ite
    · exact balanced_poolPure _
    · apply balanced_bind (balanced_email_exists_conn _ _)
      intro is_email
      by_cases hie : (!is_email) = true
      · simp only [if_pos hie]
        exact balanced_poolPure _
      · simp only [if_neg hie]
        cases generate_new_hashed_password fs (inp.password.getD "")
            (inp.confirm_password.getD "") with
        | statusDict msg => exact balanced_raise _
        | pair s h =>
            intro m
            rfl
  · intro u i db n
    refine balanced_tryCatch ?_ balanced_pyHandler n
    intro m
    rfl
  · intro e i db n
    refine balanced_tryCatch ?_ balanced_pyHandler n
    apply balanced_bind (balanced_email_exists_conn _ _)
    intro is_email
    apply balanced_ite
    · intro m
      rfl
    · exact balanced_poolPure _
  · intro fs p cp i db n
    refine balanced_tryCatch ?_ balanced_pyHandler n
    cases generate_new_hashed_password fs p cp with
    | statusDict msg => exact balanced_raise _
    | pair s h =>
        intro m
        rfl
  · intro i db n
    exact balanced_get_user_id_conn i db n
  · intro secret now tok db n
    refine balanced_tryCatch ?_ balanced_pyHandler n
    apply balanced_bind (balanced_token_access_conn _ _ _ _)
    intro v
    cases v with
    | none => exact balanced_poolPure _
    | some user_id =>
        apply balanced_ite
        · exact balanced_raise _
        · intro m
          cases hc : (List.countP (fun r => r.id == user_id) db == 0) <;>
            simp only [netCount, Bind.bind, PoolM.bind, getconn, putconn, execQ,
              raiseExc, PoolM.pure, hc, Bool.false_eq_true, if_false, if_true] <;>
            omega

/-- Witness for C5 at the concrete id "b", secret "k" and a store holding an
unrelated row. -/
theorem c5_witness :
    validId "b" = true ∧ (∀ r ∈ [(⟨"i", "u", "e", "s", "h"⟩ : UserRow)], r.id ≠ "b") ∧
    delete_account "k" 0 (jwt_token_generalization "k" "b")
        [⟨"i", "u", "e", "s", "h"⟩] =
      (.err 500 "Internal server error: NoneType object is not subscriptable",
        [⟨"i", "u", "e", "s", "h"⟩]) :=
  ⟨by decide, by decide,
    c5_delete_absent_id_500 "k" "b" 0 [⟨"i", "u", "e", "s", "h"⟩] (by decide)
      (by decide)⟩

end MtaaAuth
